import Mathlib

/-!
Verification of the UCS LiftUp uploader backend's row-classification and
CSV re-materialization pipeline (`src/controllers/upload-controller-2.js`).

The controller is embedded shallowly: rows are positional field lists
(the csv stream hands the handler objects keyed `_0`, `_1`, ...), the
streaming data handler becomes a fold over the parsed row list, and the
end handler becomes a function from the final processing state to either
an error or a success result carrying the written file and the response
payload.
-/

namespace LiftupUploader

/-- Caller identity decoded from the request token (`req.decoded.data`). -/
structure CallerIdentity where
  providerId : String
  team : String
  teamId : String
  locationId : String
deriving DecidableEq

/-- One element of the dependency service's JSON array: an object bearing a
`ctc_number` field. -/
structure CtcItem where
  ctc_number : String
deriving DecidableEq

/-- The dependency service's HTTP response: a status code and the parsed
JSON body. -/
structure FetchResponse where
  status : Nat
  items : List CtcItem
deriving DecidableEq

/-- `Response.ok` of the fetch API: status in the inclusive range 200-299. -/
def FetchResponse.ok (r : FetchResponse) : Bool :=
  decide (200 ≤ r.status ∧ r.status ≤ 299)

/-- The uploaded file: its original name and its parsed rows, each row the
ordered list of cell values (`data._0`, `data._1`, ...). -/
structure UploadFile where
  originalname : String
  rows : List (List String)
deriving DecidableEq

/-- JS `String.prototype.split` with a one-character separator, on the
character list: splitting never returns an empty list ("" splits to [""]). -/
def splitFields (sep : Char) : List Char → List (List Char)
  | [] => [[]]
  | c :: rest =>
    if c = sep then [] :: splitFields sep rest
    else
      match splitFields sep rest with
      | [] => [[c]]
      | f :: fs => (c :: f) :: fs

/-- JS `s.split(sep)` for a one-character separator, as used by
`originalFileName.split("_")`. -/
def jsSplit (s : String) (sep : Char) : List String :=
  (splitFields sep s.data).map String.mk

/-- `fileNameParts[1]` filtered through
`["clients", "contacts", "results"].includes(...) ? ... : null`. -/
def parseUploadType (fileName : String) : Option String :=
  match (jsSplit fileName '_')[1]? with
  | some p => if p = "clients" ∨ p = "contacts" ∨ p = "results" then some p else none
  | none => none

/-- JS `existingCtcNumbers.includes(x)` where `x` is a possibly-undefined
row field: `undefined` is never a member of an array of strings. -/
def includes (l : List String) (x : Option String) : Bool :=
  match x with
  | some s => l.contains s
  | none => false

/-- The rejection reason computed by the csv stream's data handler:
clients uploads reject a row whose field `_0` is already a known CTC
number, contacts/results uploads reject a row whose field `_12` is not a
known CTC number; every other row keeps the empty (falsy) reason. -/
def rejectionReason (uploadType : Option String) (existingCtcNumbers : List String)
    (data : List String) : String :=
  if uploadType = some "clients" ∧ includes existingCtcNumbers data[0]? then
    "Duplicate CTC number in clients file"
  else if (uploadType = some "contacts" ∨ uploadType = some "results") ∧
      ¬ includes existingCtcNumbers data[12]? then
    if uploadType = some "contacts" then
      "No matching index client CTC number in contacts file"
    else
      "No matching index client CTC number in results file"
  else
    ""

/-- An accepted row: its original positional fields plus the four appended
identity fields. -/
structure AcceptedRow where
  fields : List String
  providerId : String
  team : String
  teamId : String
  locationId : String
deriving DecidableEq

/-- A rejected row: its original positional fields plus the appended
`rejectionReason` field. -/
structure RejectedRow where
  fields : List String
  rejectionReason : String
deriving DecidableEq

/-- The mutable state of the data handler: the accepted buffer `results`,
the rejected buffer `rejectedRows`, and the `isFirstRow` flag. -/
structure ProcState where
  results : List AcceptedRow
  rejectedRows : List RejectedRow
  isFirstRow : Bool
deriving DecidableEq

/-- The synthetic label row: the four appended fields hold the literal
strings naming themselves. -/
def labelRow (data : List String) : AcceptedRow :=
  ⟨data, "providerId", "team", "teamId", "locationId"⟩

/-- A genuinely enriched row: the four appended fields hold the caller's
actual identity values. -/
def enrichRow (c : CallerIdentity) (data : List String) : AcceptedRow :=
  ⟨data, c.providerId, c.team, c.teamId, c.locationId⟩

/-- One step of the csv stream's `data` handler. -/
def handleRow (ut : Option String) (existing : List String) (c : CallerIdentity)
    (st : ProcState) (data : List String) : ProcState :=
  let reason := rejectionReason ut existing data
  if reason ≠ "" then
    { st with rejectedRows := st.rejectedRows ++ [⟨data, reason⟩] }
  else if st.isFirstRow then
    { st with results := st.results ++ [labelRow data], isFirstRow := false }
  else
    { st with results := st.results ++ [enrichRow c data] }

/-- The handler's initial state: empty buffers, `isFirstRow = true`. -/
def initState : ProcState := ⟨[], [], true⟩

/-- The whole streamed pass: fold the data handler over the parsed rows. -/
def processRows (ut : Option String) (existing : List String) (c : CallerIdentity)
    (rows : List (List String)) : ProcState :=
  rows.foldl (handleRow ut existing c) initState

/-- `Object.keys` of an accepted row object: the positional keys `_0`,
`_1`, ... in insertion order, then the four identity keys appended by the
handler. -/
def objectKeys (r : AcceptedRow) : List String :=
  (List.range r.fields.length).map (fun i => "_" ++ toString i) ++
    ["providerId", "team", "teamId", "locationId"]

/-- Property access `r[k]` on an accepted row object: the four identity
keys and the positional keys resolve to their values, anything else is
undefined. -/
def lookupKey (r : AcceptedRow) (k : String) : Option String :=
  if k = "providerId" then some r.providerId
  else if k = "team" then some r.team
  else if k = "teamId" then some r.teamId
  else if k = "locationId" then some r.locationId
  else ((r.fields.enum.find? (fun p => "_" ++ toString p.1 == k)).map Prod.snd)

/-- Doubling of embedded double quotes, the csv-writer escaping rule. -/
def escapeQuotes (s : String) : String :=
  String.mk (s.data.foldr (fun c acc => if c = '"' then '"' :: '"' :: acc else c :: acc) [])

/-- A field rendered with `alwaysQuote: true`: always wrapped in double
quotes, embedded quotes doubled. -/
def quoteField (s : String) : String :=
  "\"" ++ escapeQuotes s ++ "\""

/-- The file produced by `createObjectCsvWriter` + `writeRecords`:
directory and name of the target path, the configured header keys, and
the records handed to the writer. -/
structure WrittenFile where
  directory : String
  fileName : String
  header : List String
  records : List AcceptedRow
deriving DecidableEq

/-- Modelled from the spec: the CSV re-materializer (csv-writer with a
string-array header and `alwaysQuote: true`) renders each record by
extracting the header keys in order and quoting every field
unconditionally; an undefined key renders as the empty string. -/
def WrittenFile.renderedLines (f : WrittenFile) : List (List String) :=
  f.records.map (fun r => f.header.map (fun k => quoteField ((lookupKey r k).getD "")))

/-- The success payload returned with HTTP 201. -/
structure Payload where
  rejected : Bool
  rejectedRows : List RejectedRow
deriving DecidableEq

/-- The error taxonomy of the controller's throw sites. -/
inductive UploadError where
  | noFile
  | upstreamUnavailable
  | invalidUploadType (uploadType : Option String)
  | noAcceptableRows
deriving DecidableEq

/-- The literal message of each thrown error. -/
def UploadError.message : UploadError → String
  | .noFile => "No file provided!"
  | .upstreamUnavailable => "CTC Deuplicator checker unavailable. Retry later!"
  | .invalidUploadType ut => "Invalid upload type: " ++ (match ut with | some s => s | none => "null")
  | .noAcceptableRows => "All rows were rejected."

/-- The observable outcome of a successful upload: the written file and
the response payload. -/
structure SuccessResult where
  writtenFile : WrittenFile
  payload : Payload
deriving DecidableEq

/-- The `switch (uploadType)` directory mapping; the default branch is the
`Invalid upload type` throw, modelled as `none`. -/
def uploadDirectory : Option String → Option String
  | some "clients" => some "index_uploads"
  | some "contacts" => some "contacts_uploads"
  | some "results" => some "results_uploads"
  | _ => none

/-- The csv stream's `end` handler: fail with `NoAcceptableRows` when the
accepted buffer is empty, otherwise resolve the output directory (fatal
`InvalidUploadType` when unmapped), write the accepted buffer, and build
the payload with the rejected flag and the first-entry-dropped rejected
list. -/
def endHandler (ut : Option String) (originalFileName : String) (st : ProcState) :
    Except UploadError SuccessResult :=
  match st.results with
  | [] => .error .noAcceptableRows
  | r0 :: _ =>
    match uploadDirectory ut with
    | none => .error (.invalidUploadType ut)
    | some dir =>
      let rejected : Bool := decide (st.rejectedRows.length > 0)
      .ok
        { writtenFile :=
            { directory := dir
              fileName := originalFileName
              header := objectKeys r0
              records := st.results }
          payload :=
            { rejected := rejected
              rejectedRows := if rejected then st.rejectedRows.drop 1 else st.rejectedRows } }

/-- The state reached after the full streamed pass of `create`'s wiring:
upload type parsed from the file name, reference set projected from the
fetched items. -/
def runState (file : UploadFile) (resp : FetchResponse) (c : CallerIdentity) : ProcState :=
  processRows (parseUploadType file.originalname) (resp.items.map CtcItem.ctc_number) c file.rows

/-- `UploadController.create`: reject a missing file, parse the upload
type from the file name, abort when the reference-set fetch is not ok,
otherwise run the streamed pass and the end handler. -/
def create (fileOpt : Option UploadFile) (resp : FetchResponse) (decoded : CallerIdentity) :
    Except UploadError SuccessResult :=
  match fileOpt with
  | none => .error .noFile
  | some file =>
    if resp.ok then
      endHandler (parseUploadType file.originalname) file.originalname (runState file resp decoded)
    else
      .error .upstreamUnavailable

/-- Sample caller identity used by concrete witnesses. -/
def sampleCaller : CallerIdentity := ⟨"provider-1", "team-A", "team-1", "loc-1"⟩

/-! ### Case lemmas for the data handler -/

theorem handleRow_reject (ut : Option String) (existing : List String) (c : CallerIdentity)
    (st : ProcState) (data : List String)
    (h : rejectionReason ut existing data ≠ "") :
    handleRow ut existing c st data =
      { st with rejectedRows := st.rejectedRows ++ [⟨data, rejectionReason ut existing data⟩] } := by
  simp [handleRow, h]

theorem handleRow_accept_first (ut : Option String) (existing : List String) (c : CallerIdentity)
    (st : ProcState) (data : List String)
    (h : rejectionReason ut existing data = "") (hf : st.isFirstRow = true) :
    handleRow ut existing c st data =
      { st with results := st.results ++ [labelRow data], isFirstRow := false } := by
  simp [handleRow, h, hf]

theorem handleRow_accept_rest (ut : Option String) (existing : List String) (c : CallerIdentity)
    (st : ProcState) (data : List String)
    (h : rejectionReason ut existing data = "") (hf : st.isFirstRow = false) :
    handleRow ut existing c st data =
      { st with results := st.results ++ [enrichRow c data] } := by
  simp [handleRow, h, hf]

theorem rejectionReason_clients_dup (existing : List String) (data : List String)
    (hm : includes existing data[0]? = true) :
    rejectionReason (some "clients") existing data = "Duplicate CTC number in clients file" := by
  simp [rejectionReason, hm]

theorem rejectionReason_contacts_nomatch (existing : List String) (data : List String)
    (hm : includes existing data[12]? = false) :
    rejectionReason (some "contacts") existing data =
      "No matching index client CTC number in contacts file" := by
  simp [rejectionReason, hm]

theorem rejectionReason_results_nomatch (existing : List String) (data : List String)
    (hm : includes existing data[12]? = false) :
    rejectionReason (some "results") existing data =
      "No matching index client CTC number in results file" := by
  simp [rejectionReason, hm]

theorem rejectionReason_otherwise (ut : Option String) (existing : List String)
    (data : List String)
    (h1 : ¬ (ut = some "clients" ∧ includes existing data[0]? = true))
    (h2 : ¬ ((ut = some "contacts" ∨ ut = some "results") ∧ includes existing data[12]? = false)) :
    rejectionReason ut existing data = "" := by
  simp only [rejectionReason]
  rw [if_neg, if_neg]
  · intro hc
    exact h2 ⟨hc.1, by simpa using hc.2⟩
  · exact h1

/-! ### Claim C1 -/

/-- Claim C1, counterexample: at a concrete clients-upload row whose field
`_0` is already in the reference set, the data handler rejects the row
with the code's literal reason "Duplicate CTC number in clients file",
which is not the claim's reason "Duplicate identifier in clients file". -/
theorem c1_counterexample :
    (handleRow (some "clients") ["CTC100"] sampleCaller initState
        ["CTC100"]).rejectedRows.map RejectedRow.rejectionReason =
      ["Duplicate CTC number in clients file"] ∧
    "Duplicate CTC number in clients file" ≠ "Duplicate identifier in clients file" := by
  constructor
  · rfl
  · decide

/-- Helper: full case analysis of the data handler's accept/reject policy,
shared by several claims. -/
theorem handleRow_policy (ut : Option String) (existing : List String)
    (c : CallerIdentity) (st : ProcState) (data : List String) :
    (ut = some "clients" → includes existing data[0]? = true →
      handleRow ut existing c st data =
        { st with rejectedRows :=
            st.rejectedRows ++ [⟨data, "Duplicate CTC number in clients file"⟩] }) ∧
    (ut = some "contacts" → includes existing data[12]? = false →
      handleRow ut existing c st data =
        { st with rejectedRows :=
            st.rejectedRows ++ [⟨data, "No matching index client CTC number in contacts file"⟩] }) ∧
    (ut = some "results" → includes existing data[12]? = false →
      handleRow ut existing c st data =
        { st with rejectedRows :=
            st.rejectedRows ++ [⟨data, "No matching index client CTC number in results file"⟩] }) ∧
    (¬ (ut = some "clients" ∧ includes existing data[0]? = true) →
     ¬ ((ut = some "contacts" ∨ ut = some "results") ∧ includes existing data[12]? = false) →
      (handleRow ut existing c st data).rejectedRows = st.rejectedRows ∧
      (handleRow ut existing c st data).results.map AcceptedRow.fields =
        st.results.map AcceptedRow.fields ++ [data]) := by
  refine ⟨?_, ?_, ?_, ?_⟩
  · rintro rfl hm
    have hr := rejectionReason_clients_dup existing data hm
    rw [handleRow_reject _ _ _ _ _ (by rw [hr]; decide), hr]
  · rintro rfl hm
    have hr := rejectionReason_contacts_nomatch existing data hm
    rw [handleRow_reject _ _ _ _ _ (by rw [hr]; decide), hr]
  · rintro rfl hm
    have hr := rejectionReason_results_nomatch existing data hm
    rw [handleRow_reject _ _ _ _ _ (by rw [hr]; decide), hr]
  · intro h1 h2
    have hr := rejectionReason_otherwise ut existing data h1 h2
    cases hf : st.isFirstRow with
    | true => rw [handleRow_accept_first _ _ _ _ _ hr hf]; simp [labelRow]
    | false => rw [handleRow_accept_rest _ _ _ _ _ hr hf]; simp [enrichRow]

/-- Claim C1 (amended): the classifier implements exactly the accept/reject
policy of the spec, with the code's literal reason strings: a clients row
whose field `_0` is in the reference set is appended to the rejected
buffer with reason "Duplicate CTC number in clients file"; a contacts or
results row whose field `_12` is not in the reference set is appended to
the rejected buffer with reason "No matching index client CTC number in
contacts file" or "... in results file" respectively; every other row is
appended to the accepted buffer and leaves the rejected buffer unchanged. -/
theorem c1_classifier_policy_amended (ut : Option String) (existing : List String)
    (c : CallerIdentity) (st : ProcState) (data : List String) :
    (ut = some "clients" → includes existing data[0]? = true →
      handleRow ut existing c st data =
        { st with rejectedRows :=
            st.rejectedRows ++ [⟨data, "Duplicate CTC number in clients file"⟩] }) ∧
    (ut = some "contacts" → includes existing data[12]? = false →
      handleRow ut existing c st data =
        { st with rejectedRows :=
            st.rejectedRows ++ [⟨data, "No matching index client CTC number in contacts file"⟩] }) ∧
    (ut = some "results" → includes existing data[12]? = false →
      handleRow ut existing c st data =
        { st with rejectedRows :=
            st.rejectedRows ++ [⟨data, "No matching index client CTC number in results file"⟩] }) ∧
    (¬ (ut = some "clients" ∧ includes existing data[0]? = true) →
     ¬ ((ut = some "contacts" ∨ ut = some "results") ∧ includes existing data[12]? = false) →
      (handleRow ut existing c st data).rejectedRows = st.rejectedRows ∧
      (handleRow ut existing c st data).results.map AcceptedRow.fields =
        st.results.map AcceptedRow.fields ++ [data]) :=
  handleRow_policy ut existing c st data

/-- Claim C1, witness: the amended policy applied at a concrete duplicate
clients row. -/
theorem c1_policy_witness :
    handleRow (some "clients") ["CTC100"] sampleCaller initState ["CTC100"] =
      { initState with rejectedRows := [⟨["CTC100"], "Duplicate CTC number in clients file"⟩] } := by
  have h := (c1_classifier_policy_amended (some "clients") ["CTC100"] sampleCaller initState
    ["CTC100"]).1 rfl (by decide)
  simpa [initState] using h

/-! ### Claim C10 -/

/-- Claim C10: on a contacts or results upload, a row with fewer than 13
fields has no field at position 12, its membership test in the reference
set is therefore false, and the handler always rejects it with the
corresponding no-match reason; the classifier is total on such short rows. -/
theorem c10_short_row_rejected (ut : Option String) (existing : List String)
    (c : CallerIdentity) (st : ProcState) (data : List String)
    (hut : ut = some "contacts" ∨ ut = some "results")
    (hshort : data.length < 13) :
    data[12]? = none ∧
    includes existing data[12]? = false ∧
    handleRow ut existing c st data =
      { st with rejectedRows := st.rejectedRows ++
          [⟨data, if ut = some "contacts" then
              "No matching index client CTC number in contacts file"
            else
              "No matching index client CTC number in results file"⟩] } := by
  have hnone : data[12]? = none := by
    rw [List.getElem?_eq_none_iff]
    omega
  have hinc : includes existing data[12]? = false := by
    rw [hnone]; rfl
  refine ⟨hnone, hinc, ?_⟩
  rcases hut with rfl | rfl
  · have h := (handleRow_policy (some "contacts") existing c st data).2.1 rfl hinc
    rw [h]
    simp
  · have h := (handleRow_policy (some "results") existing c st data).2.2.1 rfl hinc
    rw [h]
    simp

/-- Claim C10, witness: a contacts row with a single field is rejected with
the contacts no-match reason. -/
theorem c10_witness :
    ((some "contacts" : Option String) = some "contacts" ∨
      (some "contacts" : Option String) = some "results") ∧
    (["only"] : List String).length < 13 ∧
    ((["only"] : List String)[12]? = none ∧
     includes ["CTC1"] (["only"] : List String)[12]? = false ∧
     handleRow (some "contacts") ["CTC1"] sampleCaller initState ["only"] =
       { initState with rejectedRows := initState.rejectedRows ++
           [⟨["only"], if (some "contacts" : Option String) = some "contacts" then
               "No matching index client CTC number in contacts file"
             else
               "No matching index client CTC number in results file"⟩] }) :=
  ⟨Or.inl rfl, by decide,
    c10_short_row_rejected (some "contacts") ["CTC1"] sampleCaller initState ["only"]
      (Or.inl rfl) (by decide)⟩

/-! ### Claim C2 -/

/-- Helper: the fold of the data handler extends the accepted buffer by
exactly the rows whose rejection reason is empty and the rejected buffer
by exactly the rows whose rejection reason is non-empty, in input order. -/
theorem foldl_fields (ut : Option String) (existing : List String) (c : CallerIdentity)
    (rows : List (List String)) :
    ∀ st : ProcState,
      ((rows.foldl (handleRow ut existing c) st).results.map AcceptedRow.fields =
        st.results.map AcceptedRow.fields ++
          rows.filter (fun d => rejectionReason ut existing d == "")) ∧
      ((rows.foldl (handleRow ut existing c) st).rejectedRows.map RejectedRow.fields =
        st.rejectedRows.map RejectedRow.fields ++
          rows.filter (fun d => !(rejectionReason ut existing d == ""))) := by
  induction rows with
  | nil => intro st; simp
  | cons d rows ih =>
    intro st
    rw [List.foldl_cons]
    by_cases h : rejectionReason ut existing d = ""
    · have hb : (rejectionReason ut existing d == "") = true := by simp [h]
      cases hf : st.isFirstRow with
      | true =>
        rw [handleRow_accept_first _ _ _ _ _ h hf]
        refine ⟨?_, ?_⟩
        · rw [(ih _).1]; simp [labelRow, List.filter_cons, hb]
        · rw [(ih _).2]; simp [List.filter_cons, hb]
      | false =>
        rw [handleRow_accept_rest _ _ _ _ _ h hf]
        refine ⟨?_, ?_⟩
        · rw [(ih _).1]; simp [enrichRow, List.filter_cons, hb]
        · rw [(ih _).2]; simp [List.filter_cons, hb]
    · have hb : (rejectionReason ut existing d == "") = false := by simp [h]
      rw [handleRow_reject _ _ _ _ _ h]
      refine ⟨?_, ?_⟩
      · rw [(ih _).1]; simp [List.filter_cons, hb]
      · rw [(ih _).2]; simp [List.filter_cons, hb]

/-- Helper: a filter and its negation partition a list's length. -/
theorem length_filter_partition {α : Type} (p : α → Bool) (l : List α) :
    (l.filter p).length + (l.filter (fun a => !(p a))).length = l.length := by
  induction l with
  | nil => rfl
  | cons a l ih =>
    cases h : p a <;> simp [List.filter_cons, h] <;> omega

/-- Claim C2: over any input row list, upload type and reference set, the
streamed pass appends each parsed row to exactly one of the accepted and
rejected buffers: the accepted buffer's underlying rows are exactly the
input rows with empty rejection reason, the rejected buffer's underlying
rows are exactly the input rows with non-empty rejection reason, and the
two buffer lengths sum to the input length (no row in both, none
dropped). -/
theorem c2_row_partition (ut : Option String) (existing : List String) (c : CallerIdentity)
    (rows : List (List String)) :
    ((processRows ut existing c rows).results.map AcceptedRow.fields =
      rows.filter (fun d => rejectionReason ut existing d == "")) ∧
    ((processRows ut existing c rows).rejectedRows.map RejectedRow.fields =
      rows.filter (fun d => !(rejectionReason ut existing d == ""))) ∧
    ((processRows ut existing c rows).results.length +
      (processRows ut existing c rows).rejectedRows.length = rows.length) := by
  have h := foldl_fields ut existing c rows initState
  rw [processRows]
  have h1 : (rows.foldl (handleRow ut existing c) initState).results.map AcceptedRow.fields =
      rows.filter (fun d => rejectionReason ut existing d == "") := by
    rw [h.1]; simp [initState]
  have h2 : (rows.foldl (handleRow ut existing c) initState).rejectedRows.map RejectedRow.fields =
      rows.filter (fun d => !(rejectionReason ut existing d == "")) := by
    rw [h.2]; simp [initState]
  refine ⟨h1, h2, ?_⟩
  have l1 := congrArg List.length h1
  have l2 := congrArg List.length h2
  rw [List.length_map] at l1 l2
  rw [l1, l2]
  exact length_filter_partition _ rows

/-! ### Claim C3 -/

/-- The four appended fields of a row hold the literal label strings. -/
def IsLabelRow (r : AcceptedRow) : Prop :=
  r.providerId = "providerId" ∧ r.team = "team" ∧ r.teamId = "teamId" ∧
    r.locationId = "locationId"

/-- The four appended fields of a row hold the caller's actual identity
values. -/
def IsCallerRow (c : CallerIdentity) (r : AcceptedRow) : Prop :=
  r.providerId = c.providerId ∧ r.team = c.team ∧ r.teamId = c.teamId ∧
    r.locationId = c.locationId

/-- The header-row invariant of the accepted buffer: either nothing was
accepted yet and the first-row flag is still set, or the flag is cleared,
the buffer starts with the synthetic label row, and every later entry
carries the caller's identity. -/
def HeaderInvariant (c : CallerIdentity) (st : ProcState) : Prop :=
  (st.isFirstRow = true ∧ st.results = []) ∨
  (st.isFirstRow = false ∧ ∃ r0 rest, st.results = r0 :: rest ∧ IsLabelRow r0 ∧
    ∀ r ∈ rest, IsCallerRow c r)

/-- Helper: one handler step preserves the header-row invariant. -/
theorem headerInvariant_handleRow (ut : Option String) (existing : List String)
    (c : CallerIdentity) (st : ProcState) (data : List String)
    (h : HeaderInvariant c st) :
    HeaderInvariant c (handleRow ut existing c st data) := by
  by_cases hrej : rejectionReason ut existing data = ""
  · rcases h with ⟨hf, hres⟩ | ⟨hf, r0, rest, hres, hlab, hcall⟩
    · rw [handleRow_accept_first _ _ _ _ _ hrej hf]
      right
      refine ⟨rfl, labelRow data, [], ?_, ?_, by simp⟩
      · simp [hres]
      · simp [labelRow, IsLabelRow]
    · rw [handleRow_accept_rest _ _ _ _ _ hrej hf]
      right
      refine ⟨hf, r0, rest ++ [enrichRow c data], ?_, hlab, ?_⟩
      · simp [hres]
      · intro r hr
        rcases List.mem_append.mp hr with hr | hr
        · exact hcall r hr
        · rcases List.mem_singleton.mp hr with rfl
          exact ⟨rfl, rfl, rfl, rfl⟩
  · rw [handleRow_reject _ _ _ _ _ hrej]
    rcases h with ⟨hf, hres⟩ | ⟨hf, r0, rest, hres, hlab, hcall⟩
    · exact Or.inl ⟨hf, hres⟩
    · exact Or.inr ⟨hf, r0, rest, hres, hlab, hcall⟩

/-- Helper: the fold of the data handler preserves the header-row
invariant. -/
theorem headerInvariant_foldl (ut : Option String) (existing : List String)
    (c : CallerIdentity) (rows : List (List String)) :
    ∀ st : ProcState, HeaderInvariant c st →
      HeaderInvariant c (rows.foldl (handleRow ut existing c) st) := by
  induction rows with
  | nil => intro st h; exact h
  | cons d rows ih =>
    intro st h
    rw [List.foldl_cons]
    exact ih _ (headerInvariant_handleRow ut existing c st d h)

/-- Claim C3: whenever any row was accepted, the accepted buffer's first
entry is the synthetic label row whose four appended fields hold the
literal strings "providerId", "team", "teamId", "locationId", and every
later entry of the buffer carries the caller's actual providerId, team,
teamId and locationId values — regardless of how many earlier input rows
were rejected. -/
theorem c3_label_row_first (ut : Option String) (existing : List String)
    (c : CallerIdentity) (rows : List (List String))
    (h : (processRows ut existing c rows).results ≠ []) :
    ∃ r0 rest, (processRows ut existing c rows).results = r0 :: rest ∧
      IsLabelRow r0 ∧ ∀ r ∈ rest, IsCallerRow c r := by
  have hinv := headerInvariant_foldl ut existing c rows initState (Or.inl ⟨rfl, rfl⟩)
  rcases hinv with ⟨_, hres⟩ | ⟨_, r0, rest, hres, hlab, hcall⟩
  · exact absurd hres h
  · exact ⟨r0, rest, hres, hlab, hcall⟩

/-- Claim C3, witness: a clients upload with two accepted rows has the
label row first and the caller's values on the second entry. -/
theorem c3_witness :
    (processRows (some "clients") [] sampleCaller [["a"], ["b"]]).results ≠ [] ∧
    ∃ r0 rest,
      (processRows (some "clients") [] sampleCaller [["a"], ["b"]]).results = r0 :: rest ∧
      IsLabelRow r0 ∧ ∀ r ∈ rest, IsCallerRow sampleCaller r :=
  ⟨by decide, c3_label_row_first (some "clients") [] sampleCaller [["a"], ["b"]] (by decide)⟩

/-! ### Inversion of a successful run -/

/-- Helper: a successful end handler run means the accepted buffer was
non-empty, the upload type mapped to a directory, and the result is the
written file plus the payload with the rejected flag and the
first-entry-dropped rejected list. -/
theorem endHandler_ok_inv (ut : Option String) (fn : String) (st : ProcState)
    (res : SuccessResult) (h : endHandler ut fn st = .ok res) :
    ∃ r0 rest dir, st.results = r0 :: rest ∧ uploadDirectory ut = some dir ∧
      res = { writtenFile := ⟨dir, fn, objectKeys r0, st.results⟩
              payload := ⟨decide (st.rejectedRows.length > 0),
                if decide (st.rejectedRows.length > 0) = true then st.rejectedRows.drop 1
                else st.rejectedRows⟩ } := by
  rw [endHandler] at h
  cases hres : st.results with
  | nil => rw [hres] at h; simp at h
  | cons r0 rest =>
    rw [hres] at h
    cases hdir : uploadDirectory ut with
    | none => rw [hdir] at h; simp at h
    | some dir =>
      rw [hdir] at h
      simp only [Except.ok.injEq] at h
      exact ⟨r0, rest, dir, rfl, rfl, by rw [← h, ← hres]⟩

/-- Helper: a successful `create` run means a file was supplied, the fetch
responded ok, and the end handler succeeded on the streamed state. -/
theorem create_ok_resp (file : UploadFile) (resp : FetchResponse) (c : CallerIdentity)
    (res : SuccessResult) (h : create (some file) resp c = .ok res) :
    resp.ok = true ∧
    endHandler (parseUploadType file.originalname) file.originalname (runState file resp c) =
      .ok res := by
  rw [create] at h
  cases hok : resp.ok with
  | false => rw [hok] at h; simp at h
  | true => rw [hok] at h; simpa using h

/-! ### Claim C4 -/

/-- Claim C4: on every successful upload, the payload's rejected flag is
true exactly when the rejected buffer is non-empty, and when it is true
the reported rejected list is the rejected buffer with its first entry
removed — the drop is applied to the rejected buffer unconditionally,
whatever its first entry is; when the flag is false the buffer is passed
through unchanged (and is empty). -/
theorem c4_rejected_report (file : UploadFile) (resp : FetchResponse) (c : CallerIdentity)
    (res : SuccessResult) (h : create (some file) resp c = .ok res) :
    (res.payload.rejected = true ↔ (runState file resp c).rejectedRows ≠ []) ∧
    (res.payload.rejected = true →
      res.payload.rejectedRows = (runState file resp c).rejectedRows.drop 1) ∧
    (res.payload.rejected = false →
      res.payload.rejectedRows = (runState file resp c).rejectedRows) := by
  obtain ⟨hok, hend⟩ := create_ok_resp file resp c res h
  obtain ⟨r0, rest, dir, hres, hdir, rfl⟩ := endHandler_ok_inv _ _ _ _ hend
  refine ⟨?_, ?_, ?_⟩
  · simp [decide_eq_true_iff, List.length_pos]
  · intro hflag
    simp only [decide_eq_true_iff] at hflag ⊢
    simp [hflag]
  · intro hflag
    simp only [decide_eq_false_iff_not] at hflag
    simp [hflag]

/-- Claim C4, witness: the flag/drop property applied to a concrete upload
with one accepted and one rejected row. -/
theorem c4_witness :
    create (some ⟨"batch_clients_001.csv", [["a"], ["CTC100"]]⟩) ⟨200, [⟨"CTC100"⟩]⟩
        sampleCaller =
      Except.ok
        { writtenFile :=
            ⟨"index_uploads", "batch_clients_001.csv",
              ["_0", "providerId", "team", "teamId", "locationId"],
              [⟨["a"], "providerId", "team", "teamId", "locationId"⟩]⟩
          payload := ⟨true, []⟩ } ∧
    (((⟨true, []⟩ : Payload).rejected = true ↔
        (runState ⟨"batch_clients_001.csv", [["a"], ["CTC100"]]⟩ ⟨200, [⟨"CTC100"⟩]⟩
          sampleCaller).rejectedRows ≠ []) ∧
      ((⟨true, []⟩ : Payload).rejected = true →
        (⟨true, []⟩ : Payload).rejectedRows =
          (runState ⟨"batch_clients_001.csv", [["a"], ["CTC100"]]⟩ ⟨200, [⟨"CTC100"⟩]⟩
            sampleCaller).rejectedRows.drop 1) ∧
      ((⟨true, []⟩ : Payload).rejected = false →
        (⟨true, []⟩ : Payload).rejectedRows =
          (runState ⟨"batch_clients_001.csv", [["a"], ["CTC100"]]⟩ ⟨200, [⟨"CTC100"⟩]⟩
            sampleCaller).rejectedRows)) :=
  ⟨rfl,
    c4_rejected_report ⟨"batch_clients_001.csv", [["a"], ["CTC100"]]⟩ ⟨200, [⟨"CTC100"⟩]⟩
      sampleCaller
      ⟨⟨"index_uploads", "batch_clients_001.csv",
          ["_0", "providerId", "team", "teamId", "locationId"],
          [⟨["a"], "providerId", "team", "teamId", "locationId"⟩]⟩, ⟨true, []⟩⟩
      rfl⟩

/-! ### Claim C9 -/

/-- Claim C9: on every successful upload whose rejected buffer holds
exactly one row, the payload still flags rejected = true but reports an
empty rejectedRows list — the sole rejected row, reason included, is
silently dropped by the first-entry removal. -/
theorem c9_single_rejection_hidden (file : UploadFile) (resp : FetchResponse)
    (c : CallerIdentity) (res : SuccessResult)
    (h : create (some file) resp c = .ok res)
    (hone : (runState file resp c).rejectedRows.length = 1) :
    res.payload.rejected = true ∧ res.payload.rejectedRows = [] := by
  obtain ⟨hok, hend⟩ := create_ok_resp file resp c res h
  obtain ⟨r0, rest, dir, hres, hdir, rfl⟩ := endHandler_ok_inv _ _ _ _ hend
  constructor
  · simp [hone]
  · have hdrop : (runState file resp c).rejectedRows.drop 1 = [] := by
      rw [← hone, List.drop_length]
    simp [hone, hdrop]

/-- Claim C9, witness: a concrete upload with one accepted and one rejected
row reports rejected = true with an empty rejected list. -/
theorem c9_witness :
    create (some ⟨"visit_clients_009.csv", [["a"], ["DUP"]]⟩) ⟨299, [⟨"DUP"⟩]⟩ sampleCaller =
      Except.ok
        { writtenFile :=
            ⟨"index_uploads", "visit_clients_009.csv",
              ["_0", "providerId", "team", "teamId", "locationId"],
              [⟨["a"], "providerId", "team", "teamId", "locationId"⟩]⟩
          payload := ⟨true, []⟩ } ∧
    (runState ⟨"visit_clients_009.csv", [["a"], ["DUP"]]⟩ ⟨299, [⟨"DUP"⟩]⟩
        sampleCaller).rejectedRows.length = 1 ∧
    ((⟨true, []⟩ : Payload).rejected = true ∧ (⟨true, []⟩ : Payload).rejectedRows = []) :=
  ⟨rfl, rfl,
    c9_single_rejection_hidden ⟨"visit_clients_009.csv", [["a"], ["DUP"]]⟩ ⟨299, [⟨"DUP"⟩]⟩
      sampleCaller
      ⟨⟨"index_uploads", "visit_clients_009.csv",
          ["_0", "providerId", "team", "teamId", "locationId"],
          [⟨["a"], "providerId", "team", "teamId", "locationId"⟩]⟩, ⟨true, []⟩⟩
      rfl rfl⟩

/-! ### Claim C5 -/

/-- Claim C5: on every successful upload the configured output header is
exactly the key set of the first accepted row — the positional column
keys of the original file plus the four label keys "providerId", "team",
"teamId", "locationId" (concretely, the positional keys in insertion
order followed by the four labels) — and every field of every rendered
record is wrapped in double quotes unconditionally. -/
theorem c5_header_and_quoting (file : UploadFile) (resp : FetchResponse) (c : CallerIdentity)
    (res : SuccessResult) (h : create (some file) resp c = .ok res) :
    ∃ r0 rest, (runState file resp c).results = r0 :: rest ∧
      res.writtenFile.records = (runState file resp c).results ∧
      res.writtenFile.header = objectKeys r0 ∧
      res.writtenFile.header =
        (List.range r0.fields.length).map (fun i => "_" ++ toString i) ++
          ["providerId", "team", "teamId", "locationId"] ∧
      (∀ k, k ∈ res.writtenFile.header ↔
        (k ∈ (["providerId", "team", "teamId", "locationId"] : List String) ∨
          ∃ i, i < r0.fields.length ∧ k = "_" ++ toString i)) ∧
      (∀ line ∈ res.writtenFile.renderedLines, ∀ cell ∈ line,
        ∃ s, cell = "\"" ++ s ++ "\"") := by
  obtain ⟨hok, hend⟩ := create_ok_resp file resp c res h
  obtain ⟨r0, rest, dir, hres, hdir, rfl⟩ := endHandler_ok_inv _ _ _ _ hend
  refine ⟨r0, rest, hres, rfl, rfl, rfl, ?_, ?_⟩
  · intro k
    simp only [objectKeys, List.mem_append, List.mem_map, List.mem_range]
    constructor
    · rintro (⟨i, hi, rfl⟩ | hk)
      · exact Or.inr ⟨i, hi, rfl⟩
      · exact Or.inl hk
    · rintro (hk | ⟨i, hi, rfl⟩)
      · exact Or.inr hk
      · exact Or.inl ⟨i, hi, rfl⟩
  · intro line hline cell hcell
    rw [WrittenFile.renderedLines] at hline
    obtain ⟨r, _, rfl⟩ := List.mem_map.mp hline
    obtain ⟨k, _, rfl⟩ := List.mem_map.mp hcell
    exact ⟨escapeQuotes ((lookupKey r k).getD ""), rfl⟩

/-- Claim C5, witness: the header/quoting property applied to a concrete
clients upload with one accepted two-column row. -/
theorem c5_witness :
    create (some ⟨"b_clients_005.csv", [["x", "y"]]⟩) ⟨200, []⟩ sampleCaller =
      Except.ok
        { writtenFile :=
            ⟨"index_uploads", "b_clients_005.csv",
              ["_0", "_1", "providerId", "team", "teamId", "locationId"],
              [⟨["x", "y"], "providerId", "team", "teamId", "locationId"⟩]⟩
          payload := ⟨false, []⟩ } ∧
    ∃ r0 rest,
      (runState ⟨"b_clients_005.csv", [["x", "y"]]⟩ ⟨200, []⟩ sampleCaller).results =
        r0 :: rest ∧
      (⟨"index_uploads", "b_clients_005.csv",
          ["_0", "_1", "providerId", "team", "teamId", "locationId"],
          [⟨["x", "y"], "providerId", "team", "teamId", "locationId"⟩]⟩ :
            WrittenFile).records =
        (runState ⟨"b_clients_005.csv", [["x", "y"]]⟩ ⟨200, []⟩ sampleCaller).results ∧
      (⟨"index_uploads", "b_clients_005.csv",
          ["_0", "_1", "providerId", "team", "teamId", "locationId"],
          [⟨["x", "y"], "providerId", "team", "teamId", "locationId"⟩]⟩ :
            WrittenFile).header = objectKeys r0 ∧
      (⟨"index_uploads", "b_clients_005.csv",
          ["_0", "_1", "providerId", "team", "teamId", "locationId"],
          [⟨["x", "y"], "providerId", "team", "teamId", "locationId"⟩]⟩ :
            WrittenFile).header =
        (List.range r0.fields.length).map (fun i => "_" ++ toString i) ++
          ["providerId", "team", "teamId", "locationId"] ∧
      (∀ k,
        k ∈ (⟨"index_uploads", "b_clients_005.csv",
            ["_0", "_1", "providerId", "team", "teamId", "locationId"],
            [⟨["x", "y"], "providerId", "team", "teamId", "locationId"⟩]⟩ :
              WrittenFile).header ↔
          (k ∈ (["providerId", "team", "teamId", "locationId"] : List String) ∨
            ∃ i, i < r0.fields.length ∧ k = "_" ++ toString i)) ∧
      (∀ line ∈ (⟨"index_uploads", "b_clients_005.csv",
          ["_0", "_1", "providerId", "team", "teamId", "locationId"],
          [⟨["x", "y"], "providerId", "team", "teamId", "locationId"⟩]⟩ :
            WrittenFile).renderedLines,
        ∀ cell ∈ line, ∃ s, cell = "\"" ++ s ++ "\"") :=
  ⟨rfl,
    c5_header_and_quoting ⟨"b_clients_005.csv", [["x", "y"]]⟩ ⟨200, []⟩ sampleCaller
      ⟨⟨"index_uploads", "b_clients_005.csv",
          ["_0", "_1", "providerId", "team", "teamId", "locationId"],
          [⟨["x", "y"], "providerId", "team", "teamId", "locationId"⟩]⟩, ⟨false, []⟩⟩
      rfl⟩

/-! ### Claim C6 -/

/-- Helper: an empty accepted buffer makes the end handler fail with
`NoAcceptableRows`, before the output directory is even resolved. -/
theorem endHandler_empty (ut : Option String) (fn : String) (st : ProcState)
    (h : st.results = []) :
    endHandler ut fn st = .error .noAcceptableRows := by
  rw [endHandler, h]

/-- Claim C6: whenever the accepted buffer is empty after the stream is
exhausted, `create` fails with the `NoAcceptableRows` error whose message
is the literal "All rows were rejected.", and no success result (hence no
written file) is produced; the upload type plays no role, so this also
covers uploads whose rows were classified under an invalid type. -/
theorem c6_no_acceptable_rows (file : UploadFile) (resp : FetchResponse) (c : CallerIdentity)
    (hok : resp.ok = true)
    (hempty : (runState file resp c).results = []) :
    create (some file) resp c = .error .noAcceptableRows ∧
    UploadError.noAcceptableRows.message = "All rows were rejected." := by
  refine ⟨?_, rfl⟩
  rw [create, if_pos hok]
  exact endHandler_empty _ _ _ hempty

/-- Claim C6, witness: a contacts upload whose only row has no matching
index CTC number yields the `NoAcceptableRows` error. -/
theorem c6_witness :
    (⟨200, []⟩ : FetchResponse).ok = true ∧
    (runState ⟨"batch_contacts_002.csv", [["x"]]⟩ ⟨200, []⟩ sampleCaller).results = [] ∧
    (create (some ⟨"batch_contacts_002.csv", [["x"]]⟩) ⟨200, []⟩ sampleCaller =
        .error .noAcceptableRows ∧
      UploadError.noAcceptableRows.message = "All rows were rejected.") :=
  ⟨rfl, rfl,
    c6_no_acceptable_rows ⟨"batch_contacts_002.csv", [["x"]]⟩ ⟨200, []⟩ sampleCaller rfl rfl⟩

/-! ### Claim C7 -/

/-- Claim C7: when the reference-set fetch does not respond successfully
(`resp.ok = false`, i.e. a non-2xx status), `create` aborts with the
`UpstreamUnavailable` error for every possible row content of the file —
the outcome is independent of the rows, so no row is read or classified —
and no success result (hence no written file) is produced. -/
theorem c7_upstream_unavailable (name : String) (c : CallerIdentity) (resp : FetchResponse)
    (h : resp.ok = false) :
    ∀ rows : List (List String),
      create (some ⟨name, rows⟩) resp c = .error .upstreamUnavailable := by
  intro rows
  rw [create, if_neg]
  simp [h]

/-- Claim C7, witness: a 500 response aborts a concrete upload with
`UpstreamUnavailable`. -/
theorem c7_witness :
    (⟨500, []⟩ : FetchResponse).ok = false ∧
    create (some ⟨"batch_clients_003.csv", [["r"]]⟩) ⟨500, []⟩ sampleCaller =
      .error .upstreamUnavailable :=
  ⟨rfl, c7_upstream_unavailable "batch_clients_003.csv" sampleCaller ⟨500, []⟩ rfl [["r"]]⟩

/-! ### Claim C8 -/

/-- Helper: with a non-empty accepted buffer and an unmapped upload type,
the end handler fails with `InvalidUploadType`. -/
theorem endHandler_invalid (ut : Option String) (fn : String) (st : ProcState)
    (hne : st.results ≠ []) (hdir : uploadDirectory ut = none) :
    endHandler ut fn st = .error (.invalidUploadType ut) := by
  rw [endHandler]
  cases hres : st.results with
  | nil => exact absurd hres hne
  | cons r0 rest => rw [hdir]

/-- Claim C8: when the file name's second underscore-delimited segment is
outside {clients, contacts, results}, the upload type is recorded as
`none`; classification then rejects no row at all (the whole stream is
classified, every row accepted), and the fatal `InvalidUploadType` error
arises only afterwards at output-directory resolution, and only when the
accepted buffer is non-empty — with no rows the run fails with
`NoAcceptableRows` instead. -/
theorem c8_invalid_type_deferred (name : String) (rows : List (List String))
    (resp : FetchResponse) (c : CallerIdentity)
    (hseg : ∀ s, (jsSplit name '_')[1]? = some s →
      s ≠ "clients" ∧ s ≠ "contacts" ∧ s ≠ "results")
    (hok : resp.ok = true) :
    parseUploadType name = none ∧
    (processRows none (resp.items.map CtcItem.ctc_number) c rows).rejectedRows = [] ∧
    (processRows none (resp.items.map CtcItem.ctc_number) c rows).results.length =
      rows.length ∧
    (rows ≠ [] → create (some ⟨name, rows⟩) resp c = .error (.invalidUploadType none)) ∧
    (rows = [] → create (some ⟨name, rows⟩) resp c = .error .noAcceptableRows) := by
  have hparse : parseUploadType name = none := by
    rw [parseUploadType]
    cases hs : (jsSplit name '_')[1]? with
    | none => rfl
    | some s =>
      obtain ⟨h1, h2, h3⟩ := hseg s hs
      simp [h1, h2, h3]
  have hreason : ∀ d : List String,
      rejectionReason none (resp.items.map CtcItem.ctc_number) d = "" := fun d =>
    rejectionReason_otherwise none _ d (by simp) (by simp)
  have hfold := foldl_fields none (resp.items.map CtcItem.ctc_number) c rows initState
  have hacc : (processRows none (resp.items.map CtcItem.ctc_number) c rows).results.map
      AcceptedRow.fields = rows := by
    rw [processRows, hfold.1]
    simp only [initState, List.map_nil, List.nil_append]
    exact List.filter_eq_self.mpr (fun d _ => by simp [hreason d])
  have hrej : (processRows none (resp.items.map CtcItem.ctc_number) c rows).rejectedRows = [] := by
    have hmap : ((processRows none (resp.items.map CtcItem.ctc_number) c
        rows).rejectedRows).map RejectedRow.fields = [] := by
      rw [processRows, hfold.2]
      simp only [initState, List.map_nil, List.nil_append]
      exact List.filter_eq_nil_iff.mpr (fun d _ => by simp [hreason d])
    exact List.map_eq_nil_iff.mp hmap
  have hlen : (processRows none (resp.items.map CtcItem.ctc_number) c rows).results.length =
      rows.length := by
    have := congrArg List.length hacc
    rwa [List.length_map] at this
  refine ⟨hparse, hrej, hlen, ?_, ?_⟩
  · intro hne
    rw [create, if_pos hok]
    show endHandler (parseUploadType name) name
      (processRows (parseUploadType name) (resp.items.map CtcItem.ctc_number) c rows) = _
    rw [hparse]
    refine endHandler_invalid none name _ ?_ rfl
    intro hnil
    rw [hnil] at hlen
    have hz : rows.length = 0 := by simpa using hlen.symm
    exact hne (List.length_eq_zero.mp hz)
  · intro hnil
    subst hnil
    rw [create, if_pos hok]
    show endHandler (parseUploadType name) name
      (processRows (parseUploadType name) (resp.items.map CtcItem.ctc_number) c []) = _
    rw [hparse]
    exact endHandler_empty none name _ rfl

/-- Claim C8, witness: the deferred invalid-type behavior on a concrete
file named with the unmapped segment "unknown". -/
theorem c8_witness :
    parseUploadType "batch_unknown_004.csv" = none ∧
    (processRows none ((⟨204, []⟩ : FetchResponse).items.map CtcItem.ctc_number) sampleCaller
        [["x"]]).rejectedRows = [] ∧
    (processRows none ((⟨204, []⟩ : FetchResponse).items.map CtcItem.ctc_number) sampleCaller
        [["x"]]).results.length = ([["x"]] : List (List String)).length ∧
    (([["x"]] : List (List String)) ≠ [] →
      create (some ⟨"batch_unknown_004.csv", [["x"]]⟩) ⟨204, []⟩ sampleCaller =
        .error (.invalidUploadType none)) ∧
    (([["x"]] : List (List String)) = [] →
      create (some ⟨"batch_unknown_004.csv", [["x"]]⟩) ⟨204, []⟩ sampleCaller =
        .error .noAcceptableRows) :=
  c8_invalid_type_deferred "batch_unknown_004.csv" [["x"]] ⟨204, []⟩ sampleCaller
    (by
      intro s hs
      rw [show (jsSplit "batch_unknown_004.csv" '_')[1]? = some "unknown" from rfl] at hs
      injection hs with h
      subst h
      refine ⟨by decide, by decide, by decide⟩)
    rfl

end LiftupUploader
